import Mathlib

/-!
Shallow embedding of the readiness-check utilities of
`misc/python/materialize/mzcompose/__init__.py`: the TCP readiness check
`_check_tcp` and the SQL readiness check `_wait_for_pg`, together with the
Python value model needed to state their result-comparison semantics.
-/

/-- A model of the Python values that flow through `_wait_for_pg`'s result
comparison: strings, ints, lists, tuples and `None`.  Python `==` on these
values is structural equality that distinguishes lists from tuples (a
`list` never compares equal to a `tuple`), which is exactly the derived
decidable equality of this inductive type. -/
inductive PyVal where
  | pyStr : String → PyVal
  | pyInt : Int → PyVal
  | pyList : List PyVal → PyVal
  | pyTuple : List PyVal → PyVal
  | pyNone : PyVal

mutual

/-- Decidable equality for `PyVal`, written by hand because the automatic
deriving does not handle the nested `List PyVal` occurrences. -/
def pyDecEq : (a b : PyVal) → Decidable (a = b)
  | .pyStr a, .pyStr b =>
    match decEq a b with
    | isTrue h => isTrue (by rw [h])
    | isFalse h => isFalse (fun hh => h (PyVal.pyStr.inj hh))
  | .pyInt a, .pyInt b =>
    match decEq a b with
    | isTrue h => isTrue (by rw [h])
    | isFalse h => isFalse (fun hh => h (PyVal.pyInt.inj hh))
  | .pyNone, .pyNone => isTrue rfl
  | .pyList a, .pyList b =>
    match pyDecEqList a b with
    | isTrue h => isTrue (by rw [h])
    | isFalse h => isFalse (fun hh => h (PyVal.pyList.inj hh))
  | .pyTuple a, .pyTuple b =>
    match pyDecEqList a b with
    | isTrue h => isTrue (by rw [h])
    | isFalse h => isFalse (fun hh => h (PyVal.pyTuple.inj hh))
  | .pyStr _, .pyInt _ => isFalse (fun h => PyVal.noConfusion h)
  | .pyStr _, .pyList _ => isFalse (fun h => PyVal.noConfusion h)
  | .pyStr _, .pyTuple _ => isFalse (fun h => PyVal.noConfusion h)
  | .pyStr _, .pyNone => isFalse (fun h => PyVal.noConfusion h)
  | .pyInt _, .pyStr _ => isFalse (fun h => PyVal.noConfusion h)
  | .pyInt _, .pyList _ => isFalse (fun h => PyVal.noConfusion h)
  | .pyInt _, .pyTuple _ => isFalse (fun h => PyVal.noConfusion h)
  | .pyInt _, .pyNone => isFalse (fun h => PyVal.noConfusion h)
  | .pyList _, .pyStr _ => isFalse (fun h => PyVal.noConfusion h)
  | .pyList _, .pyInt _ => isFalse (fun h => PyVal.noConfusion h)
  | .pyList _, .pyTuple _ => isFalse (fun h => PyVal.noConfusion h)
  | .pyList _, .pyNone => isFalse (fun h => PyVal.noConfusion h)
  | .pyTuple _, .pyStr _ => isFalse (fun h => PyVal.noConfusion h)
  | .pyTuple _, .pyInt _ => isFalse (fun h => PyVal.noConfusion h)
  | .pyTuple _, .pyList _ => isFalse (fun h => PyVal.noConfusion h)
  | .pyTuple _, .pyNone => isFalse (fun h => PyVal.noConfusion h)
  | .pyNone, .pyStr _ => isFalse (fun h => PyVal.noConfusion h)
  | .pyNone, .pyInt _ => isFalse (fun h => PyVal.noConfusion h)
  | .pyNone, .pyList _ => isFalse (fun h => PyVal.noConfusion h)
  | .pyNone, .pyTuple _ => isFalse (fun h => PyVal.noConfusion h)

/-- Decidable equality for lists of `PyVal`. -/
def pyDecEqList : (a b : List PyVal) → Decidable (a = b)
  | [], [] => isTrue rfl
  | [], _ :: _ => isFalse (fun h => List.noConfusion h)
  | _ :: _, [] => isFalse (fun h => List.noConfusion h)
  | a :: as, b :: bs =>
    match pyDecEq a b, pyDecEqList as bs with
    | isTrue h1, isTrue h2 => isTrue (by rw [h1, h2])
    | isFalse h1, _ => isFalse (fun hh => h1 (List.cons.inj hh).1)
    | _, isFalse h2 => isFalse (fun hh => h2 (List.cons.inj hh).2)

end

instance : DecidableEq PyVal := pyDecEq

mutual

/-- Python `repr`/`str` of a `PyVal`, as used by the f-strings of
`_wait_for_pg` when interpolating `expected` and `result` (lists render as
`[a, b]`, one-element tuples as `(a,)`, strings with surrounding quotes). -/
def pyRepr : PyVal → String
  | .pyStr s => "\x27" ++ s ++ "\x27"
  | .pyInt n => toString n
  | .pyNone => "None"
  | .pyList l => "[" ++ pyReprList l ++ "]"
  | .pyTuple [a] => "(" ++ pyRepr a ++ ",)"
  | .pyTuple l => "(" ++ pyReprList l ++ ")"

/-- Comma-separated rendering of a list of `PyVal`s. -/
def pyReprList : List PyVal → String
  | [] => ""
  | [a] => pyRepr a
  | a :: b :: rest => pyRepr a ++ ", " ++ pyReprList (b :: rest)

end

/-- Predicate `pfx n l`: the char list `n` starts the list `l`. -/
def pfx : List Char → List Char → Bool
  | [], _ => true
  | _ :: _, [] => false
  | a :: as, b :: bs => a == b && pfx as bs

/-- Predicate `containsSub n l`: the char list `n` occurs contiguously
inside `l`. -/
def containsSub (n : List Char) : List Char → Bool
  | [] => pfx n []
  | c :: t => pfx n (c :: t) || containsSub n t

/-- Predicate `strContainsSub hay needle`: `needle` occurs as a contiguous
substring of `hay`. -/
def strContainsSub (hay needle : String) : Bool :=
  containsSub needle.data hay.data

/-- Connection / query parameters of `_wait_for_pg` (everything except the
expectation and the tick trace).  `sslmode` is omitted: it is only forwarded
to `psycopg.connect` and never inspected. -/
structure PgParams where
  timeout_secs : Int
  query : String
  dbname : String
  port : Int
  host : String
  user : String
  password : Option String
  print_result : Bool
deriving DecidableEq

/-- The expression `password[0:1] if password is not None else ""`: the obfuscated password
computed at the top of `_wait_for_pg`. -/
def obfuscate : Option String → String
  | some p => p.take 1
  | none => ""

/-- The `args` string of `_wait_for_pg`:
`f"dbname={dbname} host={host} port={port} user={user} password='{obfuscated_password}...'"`. -/
def args_str (p : PgParams) : String :=
  "dbname=" ++ p.dbname ++ " host=" ++ p.host ++ " port=" ++ toString p.port
    ++ " user=" ++ p.user ++ " password=\x27" ++ obfuscate p.password ++ "...\x27"

/-- Python `str` of an optional string, rendering `None` as `"None"` as an
f-string does. -/
def optionStr : Option String → String
  | none => "None"
  | some s => s

/-- The initial progress message
`f"waiting for {args} to handle {query!r}"` (modelling `repr` of a
well-behaved query string as surrounding quotes). -/
def waitingMsg (p : PgParams) : String :=
  "waiting for " ++ args_str p ++ " to handle \x27" ++ p.query ++ "\x27"

/-- The terminal message of `raise UIError(f"never got correct result for {args}: {error}")`. -/
def timeoutMsg (p : PgParams) (error : Option String) : String :=
  "never got correct result for " ++ args_str p ++ ": " ++ optionStr error

/-- The mismatch diagnostic
`f"host={host} port={port} did not return rows matching {expected} got: {result}"`. -/
def mismatchMsg (p : PgParams) (expected : PyVal) (rows : List PyVal) : String :=
  "host=" ++ p.host ++ " port=" ++ toString p.port ++ " did not return rows matching "
    ++ pyRepr expected ++ " got: " ++ pyRepr (.pyList rows)

/-- The per-exception progress message
`f"{e if print_result else ''} {int(remaining)}"` (the tick value is modelled
already truncated to an integer). -/
def errTickMsg (p : PgParams) (e : String) (remaining : Int) : String :=
  (if p.print_result then e else "") ++ " " ++ toString remaining

/-- Environment behaviour of one probe attempt of `_wait_for_pg`: either
`psycopg.connect` raises, or `cur.execute` raises, or execution succeeds and
`cur.fetchall()` raises (carrying the rowcount observed before the fetch), or
everything succeeds yielding a rowcount and the fetched rows (each row a
`pyTuple`).  The rendered text of a raised exception is carried as a string. -/
inductive AttemptEnv where
  | connectErr : String → AttemptEnv
  | execErr : String → AttemptEnv
  | fetchErr : Int → String → AttemptEnv
  | ok : Int → List PyVal → AttemptEnv
deriving DecidableEq

/-- True when, with expectation `"any"`, the whole probe pipeline raises
nothing the loop body observes: the connection and `cur.execute` succeed and
— unless the cursor reports rowcount `-1`, in which case the source returns
before fetching — `cur.fetchall()` succeeds as well.  A no-result-set
statement (e.g. a plain `INSERT`) reports a non-negative affected-row count
as its rowcount while `fetchall()` raises, so `queryExecOk` alone does not
capture success. -/
def anyProbeOk : AttemptEnv → Bool
  | .connectErr _ => false
  | .execErr _ => false
  | .fetchErr rc _ => rc = -1
  | .ok _ _ => true

/-- True when the probe query itself executed without raising (connection
succeeded and `cur.execute` succeeded). -/
def queryExecOk : AttemptEnv → Bool
  | .connectErr _ => false
  | .execErr _ => false
  | _ => true

/-- Control outcome of one probe attempt of `_wait_for_pg`: the attempt
returns successfully, or falls through to the mismatch branch (carrying the
fetched rows), or an exception is caught by the `except` clause. -/
inductive AttemptResult where
  | success : AttemptResult
  | mismatch : List PyVal → AttemptResult
  | excCaught : String → AttemptResult
deriving DecidableEq

/-- The control flow of one iteration of `_wait_for_pg`'s `for` body: connect,
set autocommit, execute; succeed immediately when `expected == "any" and
cur.rowcount == -1` (before any fetch); otherwise fetch, succeed when
`expected == "any" or result == expected` (where `result = list(cur.fetchall())`,
a Python list); otherwise fall to the mismatch branch.  Any raised exception
is caught. -/
def attemptStep (expected : PyVal) (env : AttemptEnv) : AttemptResult :=
  match env with
  | .connectErr e => .excCaught e
  | .execErr e => .excCaught e
  | .fetchErr rc e =>
    if expected = .pyStr "any" ∧ rc = -1 then .success else .excCaught e
  | .ok rc rows =>
    if expected = .pyStr "any" ∧ rc = -1 then .success
    else if expected = .pyStr "any" ∨ PyVal.pyList rows = expected then .success
    else .mismatch rows

/-- The diagnostic messages emitted by one iteration of `_wait_for_pg`'s loop
body, mirroring the branch structure of `attemptStep`: `" success!"` on the
success paths (or the `query result:` line when `print_result` is set), the
mismatch line on the mismatch path, and the exception/tick line in the
`except` clause. -/
def attemptMsgs (p : PgParams) (expected : PyVal) (remaining : Int) (env : AttemptEnv) :
    List String :=
  match env with
  | .connectErr e => [errTickMsg p e remaining]
  | .execErr e => [errTickMsg p e remaining]
  | .fetchErr rc e =>
    if expected = .pyStr "any" ∧ rc = -1 then [" success!"]
    else [errTickMsg p e remaining]
  | .ok rc rows =>
    if expected = .pyStr "any" ∧ rc = -1 then [" success!"]
    else if expected = .pyStr "any" ∨ PyVal.pyList rows = expected then
      if p.print_result then ["query result: " ++ pyRepr (.pyList rows)]
      else [" success!"]
    else [mismatchMsg p expected rows]

/-- The retry loop of `_wait_for_pg` over the tick sequence.  Modelled from the
spec: `ui.timeout_loop(timeout_secs, tick=0.5)` (whose source is not part of
this tree) yields a finite sequence of remaining-time ticks, so the loop is
given the finite list of `(remaining, attempt environment)` pairs it will
consume.  A successful attempt returns `()` immediately; a mismatch retries
with `error` unchanged; a caught exception retries after `error = e`; on
exhaustion `UIError(f"never got correct result for {args}: {error}")` is
raised, modelled as the `Except.error` carrying that message. -/
def pgLoop (p : PgParams) (expected : PyVal) :
    List (Int × AttemptEnv) → Option String → List String × Except String Unit
  | [], error => ([], .error (timeoutMsg p error))
  | (remaining, env) :: rest, error =>
    match attemptStep expected env with
    | .success => (attemptMsgs p expected remaining env, .ok ())
    | .mismatch _ =>
      let x := pgLoop p expected rest error
      (attemptMsgs p expected remaining env ++ x.1, x.2)
    | .excCaught e =>
      let x := pgLoop p expected rest (some e)
      (attemptMsgs p expected remaining env ++ x.1, x.2)

/-- Function `_wait_for_pg`: emit the initial `waiting for {args} ...` progress message,
then run the retry loop with `error = None`.  Returns the list of diagnostic
message payloads handed to the `ui.progress`/`say` sink (modelled from the
spec as a sink receiving each payload verbatim) together with the terminal
outcome. -/
def wait_for_pg (p : PgParams) (expected : PyVal) (trace : List (Int × AttemptEnv)) :
    List String × Except String Unit :=
  let x := pgLoop p expected trace none
  (waitingMsg p :: x.1, x.2)

/-- The `error` variable as updated by one loop iteration: only the `except` clause
assigns it (`error = e`); success and mismatch leave it unchanged. -/
def stepError (expected : PyVal) (error : Option String) (env : AttemptEnv) : Option String :=
  match attemptStep expected env with
  | .excCaught e => some e
  | _ => error

/-- The value of `error` after the whole trace has been consumed. -/
def lastErrorOf (expected : PyVal) (trace : List (Int × AttemptEnv))
    (error : Option String) : Option String :=
  trace.foldl (fun acc x => stepError expected acc x.2) error

/-- Resource events of one iteration of `_wait_for_pg`'s loop body:
opening the connection, setting `conn.autocommit = True`, entering the
`with conn.cursor()` block, calling `cur.execute`, leaving the `with` block
(which closes the cursor), and closing the connection. -/
inductive ResEvent where
  | connOpen : ResEvent
  | setAutocommit : ResEvent
  | cursorOpen : ResEvent
  | execQuery : ResEvent
  | cursorClose : ResEvent
  | connClose : ResEvent
deriving DecidableEq

/-- The resource events of one attempt.  When `psycopg.connect` raises, no
resource is acquired.  On every other path the connection is opened,
`autocommit` is set, the cursor is opened inside the `with` block and
`cur.execute` is called; leaving the `with` block (by exception, by `return`
or by fall-through) closes the cursor.  No path of the source ever calls
`conn.close()` or enters a `with conn:` block, so `connClose` is never
emitted. -/
def attemptEvents : AttemptEnv → List ResEvent
  | .connectErr _ => []
  | _ => [.connOpen, .setAutocommit, .cursorOpen, .execQuery, .cursorClose]

/-- The per-attempt resource events of the executed attempts of the loop
(after a successful attempt the function returns, so later ticks are not
consumed). -/
def pgLoopEvents (expected : PyVal) : List (Int × AttemptEnv) → List (List ResEvent)
  | [] => []
  | (_, env) :: rest =>
    match attemptStep expected env with
    | .success => [attemptEvents env]
    | _ => attemptEvents env :: pgLoopEvents expected rest

/-- The data of a Python `subprocess.CalledProcessError`: the command, the
exit status, and the captured `stdout`/`stderr` (each `None` when not
captured; with `stderr=subprocess.STDOUT` the stderr field stays `None`). -/
structure CalledProcessError where
  cmd : List String
  returncode : Int
  stdoutData : Option String
  stderrData : Option String
deriving DecidableEq

/-- Python `str` of a `CalledProcessError`:
`Command '...' returned non-zero exit status N.` with the command rendered by
`repr`. -/
def renderCPE (e : CalledProcessError) : String :=
  "Command " ++ pyRepr (.pyList (e.cmd.map .pyStr)) ++ " returned non-zero exit status "
    ++ toString e.returncode ++ "."

/-- Outcome of `spawn.capture` as supplied by the environment: `none` when the
process exits 0, otherwise the exit status and captured output of the raised
`CalledProcessError`. -/
structure SpawnFailure where
  returncode : Int
  stdoutData : Option String
  stderrData : Option String
deriving DecidableEq

/-- Modelled from the spec: `ui.shell_quote` (whose source is not part of this
tree) renders a command for display; modelled as joining the words with
spaces. -/
def shellQuote (cmd : List String) : String :=
  String.intercalate " " cmd

/-- The five elements `_check_tcp` appends to `cmd` via `cmd.extend([...])`:
`timeout <secs> bash -c "until [ cat < /dev/tcp/... ] ; do sleep 0.1 ; done"`. -/
def tcpProbeSuffix (host : String) (port : Int) (timeout_secs : Int) : List String :=
  ["timeout", toString timeout_secs, "bash", "-c",
   "until [ cat < /dev/null > /dev/tcp/" ++ host ++ "/" ++ toString port
     ++ " ] ; do sleep 0.1 ; done"]

/-- The diagnostic logged by `_check_tcp` when `spawn.capture` raises:
`"wait-for-tcp ({kind}{host}:{port}): error running {cmd}: {e}, stdout:\n{e.stdout}\nstderr:\n{e.stderr}"`. -/
def tcpFailMsg (kind host : String) (port : Int) (cmd : List String)
    (e : CalledProcessError) : String :=
  "wait-for-tcp (" ++ kind ++ host ++ ":" ++ toString port ++ "): error running "
    ++ shellQuote cmd ++ ": " ++ renderCPE e ++ ", stdout:\n" ++ optionStr e.stdoutData
    ++ "\nstderr:\n" ++ optionStr e.stderrData

/-- Function `_check_tcp`: extend the caller's `cmd` list in place with the
timeout/bash probe, run it with `spawn.capture`; on success return the
(extended) list, on `CalledProcessError` log the diagnostic and re-raise the
same error.  The first component of the result is the post-state of the
caller's `cmd` list (the in-place `extend` modelled as explicit state), the
second the logged messages, the third the return/raise outcome. -/
def check_tcp (cmd : List String) (host : String) (port : Int) (timeout_secs : Int)
    (kind : String) (spawnFailure : Option SpawnFailure) :
    List String × List String × Except CalledProcessError (List String) :=
  let cmd2 := cmd ++ tcpProbeSuffix host port timeout_secs
  match spawnFailure with
  | none => (cmd2, [], .ok cmd2)
  | some f =>
    let e : CalledProcessError :=
      ⟨cmd2, f.returncode, f.stdoutData, f.stderrData⟩
    (cmd2, [tcpFailMsg kind host port cmd2 e], .error e)

/-- The error payload of a terminal outcome (empty for success). -/
def errPayload : Except String Unit → String
  | .error m => m
  | .ok _ => ""

/-- A concrete `_wait_for_pg` parameter record used by the concrete runs
below: password `"secret"`, diagnostics off. -/
def exParams : PgParams :=
  { timeout_secs := 10, query := "SELECT 1", dbname := "materialize", port := 6875,
    host := "localhost", user := "materialize", password := some "secret",
    print_result := false }

/-- The same parameters with `print_result = True`, so caught exceptions are
echoed into the diagnostic stream. -/
def exParamsB : PgParams :=
  { exParams with print_result := true }

/-- The literal expectation `[(1,)]`. -/
def exExpected : PyVal := .pyList [.pyTuple [.pyInt 1]]

/-- A one-attempt trace whose single probe returns the row `(2,)` (a
mismatch against `exExpected`). -/
def exTraceMismatch : List (Int × AttemptEnv) :=
  [((9 : Int), .ok 1 [.pyTuple [.pyInt 2]])]

/-- A two-attempt trace: first a connection failure, then a probe returning
the row `(2,)`. -/
def exTraceC5 : List (Int × AttemptEnv) :=
  [((9 : Int), .connectErr "connection refused"),
   ((8 : Int), .ok 1 [.pyTuple [.pyInt 2]])]

/-- A two-attempt trace whose probes both return the mismatching row `(2,)`. -/
def exTraceC7 : List (Int × AttemptEnv) :=
  [((9 : Int), .ok 1 [.pyTuple [.pyInt 2]]),
   ((8 : Int), .ok 1 [.pyTuple [.pyInt 2]])]

/-- A concrete `spawn.capture` failure: the `timeout` wrapper exits 124, the
merged output was captured, stderr was redirected. -/
def c4fail : SpawnFailure :=
  ⟨124, some "bash: connect: Connection refused", none⟩

/-- The `CalledProcessError` that the concrete failing `_check_tcp` run
re-raises. -/
def c4err : CalledProcessError :=
  ⟨tcpProbeSuffix "localhost" 6875 5, 124, some "bash: connect: Connection refused", none⟩

/-! ## Helper lemmas -/

theorem pfx_self_append : ∀ (n r : List Char), pfx n (n ++ r) = true
  | [], _ => rfl
  | a :: as, r => by simp [pfx, pfx_self_append as r]

theorem containsSub_self_append (n r : List Char) : containsSub n (n ++ r) = true := by
  cases n with
  | nil =>
    cases r with
    | nil => rfl
    | cons c t => simp [containsSub, pfx]
  | cons a as => simp [containsSub, pfx, pfx_self_append]

theorem containsSub_append_left (n b : List Char) (h : containsSub n b = true) :
    ∀ a : List Char, containsSub n (a ++ b) = true
  | [] => by simpa using h
  | c :: t => by simp [containsSub, containsSub_append_left n b h t]

theorem str_data_append (a b : String) : (a ++ b).data = a.data ++ b.data := rfl

theorem strContainsSub_self_left (s r : String) : strContainsSub (s ++ r) s = true := by
  unfold strContainsSub
  rw [str_data_append]
  exact containsSub_self_append s.data r.data

theorem strContainsSub_append_right (a s : String) : strContainsSub (a ++ s) s = true := by
  unfold strContainsSub
  rw [str_data_append]
  refine containsSub_append_left _ _ ?_ a.data
  have h := containsSub_self_append s.data []
  simpa using h

theorem strContainsSub_append_mid (a s b : String) : strContainsSub (a ++ s ++ b) s = true := by
  unfold strContainsSub
  rw [str_data_append, str_data_append, List.append_assoc]
  exact containsSub_append_left _ _ (containsSub_self_append s.data b.data) a.data

theorem pgLoop_outcome (p : PgParams) (expected : PyVal) :
    ∀ (trace : List (Int × AttemptEnv)) (err : Option String),
      (pgLoop p expected trace err).2 = .ok ()
        ∨ ∃ e, (pgLoop p expected trace err).2 = .error (timeoutMsg p e)
  | [], err => .inr ⟨err, rfl⟩
  | (r, env) :: rest, err => by
    cases h : attemptStep expected env with
    | success => left; simp [pgLoop, h]
    | mismatch rows =>
      have ih := pgLoop_outcome p expected rest err
      simpa [pgLoop, h] using ih
    | excCaught e =>
      have ih := pgLoop_outcome p expected rest (some e)
      simpa [pgLoop, h] using ih

theorem pgLoop_timeout_of_no_success (p : PgParams) (expected : PyVal) :
    ∀ (trace : List (Int × AttemptEnv)) (err : Option String),
      (∀ x ∈ trace, attemptStep expected x.2 ≠ .success) →
      (pgLoop p expected trace err).2 = .error (timeoutMsg p (lastErrorOf expected trace err))
  | [], err, _ => by simp [pgLoop, lastErrorOf]
  | (r, env) :: rest, err, h => by
    have hhead := h (r, env) (List.mem_cons_self _ _)
    have htail : ∀ x ∈ rest, attemptStep expected x.2 ≠ .success :=
      fun x hx => h x (List.mem_cons_of_mem _ hx)
    cases hstep : attemptStep expected env with
    | success => exact absurd hstep hhead
    | mismatch rows =>
      have ih := pgLoop_timeout_of_no_success p expected rest err htail
      simp [pgLoop, hstep, ih, lastErrorOf, stepError]
    | excCaught e =>
      have ih := pgLoop_timeout_of_no_success p expected rest (some e) htail
      simp [pgLoop, hstep, ih, lastErrorOf, stepError]

theorem attemptMsgs_password_congr (p : PgParams) (pw1 pw2 : Option String)
    (expected : PyVal) (r : Int) (env : AttemptEnv) :
    attemptMsgs { p with password := pw1 } expected r env
      = attemptMsgs { p with password := pw2 } expected r env := by
  cases env <;> rfl

theorem pgLoop_password_congr (p : PgParams) (expected : PyVal) (pw1 pw2 : Option String)
    (h : obfuscate pw1 = obfuscate pw2) :
    ∀ (trace : List (Int × AttemptEnv)) (err : Option String),
      pgLoop { p with password := pw1 } expected trace err
        = pgLoop { p with password := pw2 } expected trace err
  | [], err => by simp [pgLoop, timeoutMsg, args_str, h]
  | (r, env) :: rest, err => by
    cases hstep : attemptStep expected env with
    | success => simp [pgLoop, hstep, attemptMsgs_password_congr p pw1 pw2 expected r env]
    | mismatch rows =>
      have ih := pgLoop_password_congr p expected pw1 pw2 h rest err
      simp [pgLoop, hstep, ih, attemptMsgs_password_congr p pw1 pw2 expected r env]
    | excCaught e =>
      have ih := pgLoop_password_congr p expected pw1 pw2 h rest (some e)
      simp [pgLoop, hstep, ih, attemptMsgs_password_congr p pw1 pw2 expected r env]

theorem attemptEvents_shape (env : AttemptEnv) :
    attemptEvents env = [] ∨ attemptEvents env
      = [.connOpen, .setAutocommit, .cursorOpen, .execQuery, .cursorClose] := by
  cases env <;> simp [attemptEvents]

theorem pgLoopEvents_shape (expected : PyVal) :
    ∀ (trace : List (Int × AttemptEnv)), ∀ evs ∈ pgLoopEvents expected trace,
      evs = [] ∨ evs = [.connOpen, .setAutocommit, .cursorOpen, .execQuery, .cursorClose]
  | [], evs, h => by simp [pgLoopEvents] at h
  | (r, env) :: rest, evs, h => by
    cases hstep : attemptStep expected env with
    | success =>
      simp [pgLoopEvents, hstep] at h
      rw [h]
      exact attemptEvents_shape env
    | mismatch rows =>
      simp [pgLoopEvents, hstep] at h
      rcases h with h | h
      · rw [h]; exact attemptEvents_shape env
      · exact pgLoopEvents_shape expected rest evs h
    | excCaught e =>
      simp [pgLoopEvents, hstep] at h
      rcases h with h | h
      · rw [h]; exact attemptEvents_shape env
      · exact pgLoopEvents_shape expected rest evs h

theorem attemptStep_ok_success_iff (expected : PyVal) (hne : expected ≠ .pyStr "any")
    (rc : Int) (rows : List PyVal) :
    attemptStep expected (.ok rc rows) = .success ↔ PyVal.pyList rows = expected := by
  by_cases h : PyVal.pyList rows = expected <;> simp [attemptStep, hne, h]

theorem attemptStep_ok_mismatch (expected : PyVal) (hne : expected ≠ .pyStr "any")
    (rc : Int) (rows : List PyVal) (hneq : PyVal.pyList rows ≠ expected) :
    attemptStep expected (.ok rc rows) = .mismatch rows := by
  simp [attemptStep, hne, hneq]

/-! ## Claim theorems -/

/-- C1 counterexample: a probe attempt whose statement executes without
raising but reports a non-negative rowcount and whose `fetchall()` raises —
the behaviour of a no-result-set statement such as a plain `INSERT`, whose
rowcount is the affected-row count — fails the attempt with `expected =
"any"`: the exception is caught and the attempt is retried, refuting the
claim that with `expected = "any"` an attempt succeeds if and only if the
query executes without raising. -/
theorem c1_counterexample :
    queryExecOk (.fetchErr 1 "the last operation did not produce a result") = true
    ∧ attemptStep (.pyStr "any") (.fetchErr 1 "the last operation did not produce a result")
        = .excCaught "the last operation did not produce a result"
    ∧ ¬ attemptStep (.pyStr "any") (.fetchErr 1 "the last operation did not produce a result")
        = .success := by
  decide

/-- C1 (amended): with `expected = "any"`, a single probe attempt of
`_wait_for_pg` succeeds exactly when nothing in the probe pipeline raises:
the connection and `cur.execute` must succeed, and unless the cursor reports
rowcount `-1` the fetch must succeed as well.  When the cursor reports
rowcount `-1` the attempt succeeds immediately, before and independently of
any fetch (even one that would raise); a connect or execute error always
fails the attempt; and a completed fetch succeeds regardless of the rows'
content, including zero rows with any rowcount. -/
theorem c1_amended_any_probe_success :
    (∀ env : AttemptEnv,
      attemptStep (.pyStr "any") env = .success ↔ anyProbeOk env = true)
    ∧ (∀ e : String, attemptStep (.pyStr "any") (.connectErr e) ≠ .success)
    ∧ (∀ e : String, attemptStep (.pyStr "any") (.execErr e) ≠ .success)
    ∧ (∀ (rc : Int) (e : String),
        attemptStep (.pyStr "any") (.fetchErr rc e) = .success ↔ rc = -1)
    ∧ (∀ (rc : Int) (rows : List PyVal),
        attemptStep (.pyStr "any") (.ok rc rows) = .success) := by
  refine ⟨?_, ?_, ?_, ?_, ?_⟩
  · intro env
    cases env with
    | connectErr e => simp [attemptStep, anyProbeOk]
    | execErr e => simp [attemptStep, anyProbeOk]
    | fetchErr rc e =>
      by_cases hrc : rc = -1 <;> simp [attemptStep, anyProbeOk, hrc]
    | ok rc rows =>
      by_cases hrc : rc = -1 <;> simp [attemptStep, anyProbeOk, hrc]
  · intro e h
    exact AttemptResult.noConfusion h
  · intro e h
    exact AttemptResult.noConfusion h
  · intro rc e
    by_cases hrc : rc = -1 <;> simp [attemptStep, hrc]
  · intro rc rows
    by_cases hrc : rc = -1 <;> simp [attemptStep, hrc]

/-- Witness for C1 (amended) at concrete inputs: a probe returning zero rows
with rowcount `0` succeeds, a no-result-set acknowledgment (rowcount `-1`)
succeeds even though a fetch would raise, and a connection error fails. -/
theorem c1_witness :
    (attemptStep (.pyStr "any") (.ok 0 []) = .success
      ↔ anyProbeOk (.ok 0 []) = true)
    ∧ (attemptStep (.pyStr "any") (.fetchErr (-1) "no result") = .success
      ↔ (-1 : Int) = -1)
    ∧ attemptStep (.pyStr "any") (.connectErr "refused") ≠ .success :=
  ⟨c1_amended_any_probe_success.1 (.ok 0 []),
   c1_amended_any_probe_success.2.2.2.1 (-1) "no result",
   c1_amended_any_probe_success.2.1 "refused"⟩

/-- C2: with a literal (non-`"any"`) expectation, a probe attempt succeeds
exactly when the materialized list of fetched rows equals the expectation
(order- and value-sensitive Python equality); an unequal result takes the
mismatch branch, whose single diagnostic line embeds the received rows, and
the loop then continues with the remaining ticks instead of terminating. -/
theorem c2_literal_expectation (expected : PyVal) (hne : expected ≠ .pyStr "any") :
    (∀ (rc : Int) (rows : List PyVal),
      attemptStep expected (.ok rc rows) = .success ↔ PyVal.pyList rows = expected)
    ∧ (∀ (p : PgParams) (r rc : Int) (rows : List PyVal),
        PyVal.pyList rows ≠ expected →
          attemptStep expected (.ok rc rows) = .mismatch rows
          ∧ attemptMsgs p expected r (.ok rc rows) = [mismatchMsg p expected rows]
          ∧ strContainsSub (mismatchMsg p expected rows) (pyRepr (.pyList rows)) = true)
    ∧ (∀ (p : PgParams) (r rc : Int) (rows : List PyVal)
          (rest : List (Int × AttemptEnv)) (err : Option String),
        PyVal.pyList rows ≠ expected →
          (pgLoop p expected ((r, .ok rc rows) :: rest) err).2
            = (pgLoop p expected rest err).2) := by
  refine ⟨?_, ?_, ?_⟩
  · intro rc rows
    exact attemptStep_ok_success_iff expected hne rc rows
  · intro p r rc rows hneq
    refine ⟨attemptStep_ok_mismatch expected hne rc rows hneq,
      by simp [attemptMsgs, hne, hneq], ?_⟩
    simp only [mismatchMsg]
    exact strContainsSub_append_right _ _
  · intro p r rc rows rest err hneq
    simp [pgLoop, attemptStep_ok_mismatch expected hne rc rows hneq]

/-- Witness for C2 with expectation `[(1,)]`: a probe returning `[(1,)]`
succeeds, probes returning `[(2,)]` or `[(1,), (2,)]` do not, and the
mismatching probe takes the retried mismatch branch. -/
theorem c2_witness :
    (attemptStep exExpected (.ok 1 [.pyTuple [.pyInt 1]]) = .success)
    ∧ ¬ attemptStep exExpected (.ok 1 [.pyTuple [.pyInt 2]]) = .success
    ∧ ¬ attemptStep exExpected (.ok 2 [.pyTuple [.pyInt 1], .pyTuple [.pyInt 2]]) = .success
    ∧ attemptStep exExpected (.ok 1 [.pyTuple [.pyInt 2]]) = .mismatch [.pyTuple [.pyInt 2]] := by
  have h := c2_literal_expectation exExpected (by decide)
  refine ⟨(h.1 1 [.pyTuple [.pyInt 1]]).mpr (by decide), ?_, ?_, ?_⟩
  · intro hc
    have := (h.1 1 [.pyTuple [.pyInt 2]]).mp hc
    exact absurd this (by decide)
  · intro hc
    have := (h.1 2 [.pyTuple [.pyInt 1], .pyTuple [.pyInt 2]]).mp hc
    exact absurd this (by decide)
  · exact (h.2.1 exParams 9 1 [.pyTuple [.pyInt 2]] (by decide)).1

/-- C10: the fetched result is materialized as a Python list
(`result = list(cur.fetchall())`), so with a literal expectation the
comparison `result == expected` can only succeed when `expected` is itself a
list; a tuple expectation holding the very rows the query returns is still a
mismatch on every attempt, and such a run exhausts its ticks and raises the
timeout error. -/
theorem c10_list_materialization :
    (∀ (expected : PyVal) (rc : Int) (rows : List PyVal), expected ≠ .pyStr "any" →
      attemptStep expected (.ok rc rows) = .success → ∃ l, expected = .pyList l)
    ∧ (∀ (rows : List PyVal) (rc : Int),
        attemptStep (.pyTuple rows) (.ok rc rows) = .mismatch rows)
    ∧ (∀ (p : PgParams) (rows : List PyVal) (trace : List (Int × AttemptEnv))
          (err : Option String),
        (∀ x ∈ trace, ∃ rc : Int, x.2 = .ok rc rows) →
        ∃ e, (pgLoop p (.pyTuple rows) trace err).2 = .error (timeoutMsg p e)) := by
  refine ⟨?_, ?_, ?_⟩
  · intro expected rc rows hne hs
    have h := (attemptStep_ok_success_iff expected hne rc rows).mp hs
    exact ⟨rows, h.symm⟩
  · intro rows rc
    have hne : (PyVal.pyTuple rows : PyVal) ≠ .pyStr "any" := by
      intro h
      exact PyVal.noConfusion h
    have hneq : (PyVal.pyList rows : PyVal) ≠ .pyTuple rows := by
      intro h
      exact PyVal.noConfusion h
    exact attemptStep_ok_mismatch _ hne rc rows hneq
  · intro p rows trace err h
    refine ⟨lastErrorOf (.pyTuple rows) trace err, ?_⟩
    refine pgLoop_timeout_of_no_success p (.pyTuple rows) trace err ?_
    intro x hx hs
    obtain ⟨rc, hrc⟩ := h x hx
    rw [hrc] at hs
    have hne : (PyVal.pyTuple rows : PyVal) ≠ .pyStr "any" := by
      intro hc
      exact PyVal.noConfusion hc
    have heq := (attemptStep_ok_success_iff _ hne rc rows).mp hs
    exact PyVal.noConfusion heq

/-- Witness for C10 at concrete inputs: the list expectation `[(1,)]` is a
list; the tuple expectation `((1,),)` mismatches a probe returning exactly
`(1,)`; and a run whose probes all return `(1,)` against the tuple
expectation ends in the timeout error. -/
theorem c10_witness :
    (∃ l, exExpected = PyVal.pyList l)
    ∧ attemptStep (.pyTuple [.pyTuple [.pyInt 1]]) (.ok 1 [.pyTuple [.pyInt 1]])
        = .mismatch [.pyTuple [.pyInt 1]]
    ∧ ∃ e, (pgLoop exParams (.pyTuple [.pyTuple [.pyInt 1]])
        [((9 : Int), .ok 1 [.pyTuple [.pyInt 1]])] none).2
          = .error (timeoutMsg exParams e) :=
  ⟨c10_list_materialization.1 exExpected 1 [.pyTuple [.pyInt 1]] (by decide) (by decide),
   c10_list_materialization.2.1 [.pyTuple [.pyInt 1]] 1,
   c10_list_materialization.2.2 exParams [.pyTuple [.pyInt 1]] _ none
     (by
       intro x hx
       rw [List.mem_singleton] at hx
       subst hx
       exact ⟨1, rfl⟩)⟩

/-- C6: `_wait_for_pg` has exactly one terminal outcome — its result is
either success or the terminal timeout error built by `timeoutMsg`; and every
intermediate failure is absorbed: an attempt whose exception is caught makes
the loop continue on the remaining ticks with `error` updated, and a mismatch
makes it continue with `error` unchanged — neither propagates. -/
theorem c6_single_terminal_outcome :
    (∀ (p : PgParams) (expected : PyVal) (trace : List (Int × AttemptEnv)),
      (wait_for_pg p expected trace).2 = .ok ()
        ∨ ∃ e, (wait_for_pg p expected trace).2 = .error (timeoutMsg p e))
    ∧ (∀ (p : PgParams) (expected : PyVal) (r : Int) (env : AttemptEnv)
          (rest : List (Int × AttemptEnv)) (err : Option String) (e : String),
        attemptStep expected env = .excCaught e →
          (pgLoop p expected ((r, env) :: rest) err).2
            = (pgLoop p expected rest (some e)).2)
    ∧ (∀ (p : PgParams) (expected : PyVal) (r : Int) (env : AttemptEnv)
          (rest : List (Int × AttemptEnv)) (err : Option String) (rows : List PyVal),
        attemptStep expected env = .mismatch rows →
          (pgLoop p expected ((r, env) :: rest) err).2
            = (pgLoop p expected rest err).2) := by
  refine ⟨?_, ?_, ?_⟩
  · intro p expected trace
    have h := pgLoop_outcome p expected trace none
    simpa [wait_for_pg] using h
  · intro p expected r env rest err e h
    simp [pgLoop, h]
  · intro p expected r env rest err rows h
    simp [pgLoop, h]

/-- Witness for C6 at concrete inputs: the empty-trace run has one of the two
terminal outcomes, and a caught connection error continues the loop. -/
theorem c6_witness :
    ((wait_for_pg exParams (.pyStr "any") []).2 = .ok ()
      ∨ ∃ e, (wait_for_pg exParams (.pyStr "any") []).2 = .error (timeoutMsg exParams e))
    ∧ (pgLoop exParams (.pyStr "any") [((3 : Int), .connectErr "refused")] none).2
        = (pgLoop exParams (.pyStr "any") [] (some "refused")).2 :=
  ⟨c6_single_terminal_outcome.1 exParams (.pyStr "any") [],
   c6_single_terminal_outcome.2.1 exParams (.pyStr "any") 3 (.connectErr "refused") []
     none "refused" rfl⟩

/-- C3 counterexample: in a run whose single attempt is a result-comparison
mismatch (received rows `[(2,)]`), the terminal error message carries
`error = None` — the mismatch was never captured into `error` — and contains
neither the received rows nor the mismatch diagnostic, refuting the claim
that the terminal error embeds a last mismatch. -/
theorem c3_counterexample :
    attemptStep exExpected (.ok 1 [.pyTuple [.pyInt 2]]) = .mismatch [.pyTuple [.pyInt 2]]
    ∧ (wait_for_pg exParams exExpected exTraceMismatch).2 = .error (timeoutMsg exParams none)
    ∧ timeoutMsg exParams none
        = "never got correct result for dbname=materialize host=localhost port=6875 user=materialize password=\x27s...\x27: None"
    ∧ strContainsSub (timeoutMsg exParams none) "(2,)" = false
    ∧ strContainsSub (timeoutMsg exParams none) "did not return rows matching" = false :=
  ⟨rfl, rfl, rfl, by decide, by decide⟩

/-- C3 (amended): when no attempt succeeds, `_wait_for_pg` raises the timeout
error embedding the last captured per-attempt exception (connection or query
error) — or `None` when every failure was a result mismatch, since mismatches
are only logged and never captured — together with the connection parameters
carrying the masked password. -/
theorem c3_amended_timeout_embeds_last_exception (p : PgParams) (expected : PyVal)
    (trace : List (Int × AttemptEnv))
    (h : ∀ x ∈ trace, attemptStep expected x.2 ≠ .success) :
    (wait_for_pg p expected trace).2
        = .error (timeoutMsg p (lastErrorOf expected trace none))
    ∧ strContainsSub (timeoutMsg p (lastErrorOf expected trace none))
        (optionStr (lastErrorOf expected trace none)) = true
    ∧ strContainsSub (timeoutMsg p (lastErrorOf expected trace none))
        (" password=\x27" ++ obfuscate p.password ++ "...\x27") = true := by
  refine ⟨?_, ?_, ?_⟩
  · have hl := pgLoop_timeout_of_no_success p expected trace none h
    simpa [wait_for_pg] using hl
  · simp only [timeoutMsg]
    exact strContainsSub_append_right _ _
  · have ht : timeoutMsg p (lastErrorOf expected trace none)
        = ("never got correct result for "
            ++ ("dbname=" ++ p.dbname ++ " host=" ++ p.host ++ " port="
              ++ toString p.port ++ " user=" ++ p.user))
          ++ (" password=\x27" ++ obfuscate p.password ++ "...\x27")
          ++ (": " ++ optionStr (lastErrorOf expected trace none)) := by
      simp only [timeoutMsg, args_str, String.append_assoc]
    rw [ht]
    exact strContainsSub_append_mid _ _ _

/-- Witness for C3 (amended) at a concrete input: a run whose single attempt
is a caught connection error raises the timeout error embedding it. -/
theorem c3_witness :
    (wait_for_pg exParams (.pyStr "any") [((3 : Int), AttemptEnv.connectErr "refused")]).2
      = .error (timeoutMsg exParams (lastErrorOf (.pyStr "any")
          [((3 : Int), AttemptEnv.connectErr "refused")] none)) :=
  (c3_amended_timeout_embeds_last_exception exParams (.pyStr "any")
      [((3 : Int), AttemptEnv.connectErr "refused")] (by decide)).1

/-- C5: `_wait_for_pg`'s diagnostic and error output depends on the password
only through its obfuscation (first character followed by `"..."`), so two
runs whose passwords share a first character are observably identical; and in
a concrete run with password `"secret"` (covering the waiting banner, a
caught-exception line with diagnostics on, a mismatch line, and the terminal
error) no emitted message and no raised message contains the substring
`"secret"`. -/
theorem c5_password_never_leaked :
    (∀ (p : PgParams) (expected : PyVal) (trace : List (Int × AttemptEnv))
        (pw1 pw2 : Option String), obfuscate pw1 = obfuscate pw2 →
      wait_for_pg { p with password := pw1 } expected trace
        = wait_for_pg { p with password := pw2 } expected trace)
    ∧ (∀ m ∈ (wait_for_pg exParamsB exExpected exTraceC5).1,
        strContainsSub m "secret" = false)
    ∧ strContainsSub (errPayload (wait_for_pg exParamsB exExpected exTraceC5).2)
        "secret" = false := by
  refine ⟨?_, by decide, by decide⟩
  intro p expected trace pw1 pw2 h
  have hl := pgLoop_password_congr p expected pw1 pw2 h trace none
  have hw : waitingMsg { p with password := pw1 } = waitingMsg { p with password := pw2 } := by
    simp [waitingMsg, args_str, h]
  simp [wait_for_pg, hl, hw]

/-- Witness for C5 at concrete inputs: runs with passwords `"secret"` and
`"s0000"` (same first character) are observably identical. -/
theorem c5_witness :
    wait_for_pg { exParamsB with password := some "secret" } exExpected exTraceC5
      = wait_for_pg { exParamsB with password := some "s0000" } exExpected exTraceC5 :=
  c5_password_never_leaked.1 exParamsB exExpected exTraceC5 (some "secret") (some "s0000")
    (by decide)

/-- C7 counterexample: a concrete two-attempt run (both attempts connect and
mismatch) executes two attempts, each opening a connection, yet its resource
trace contains no connection-close event at all — in particular none between
the attempts — refuting the claim that the connection opened for an attempt
is closed before the next attempt begins. -/
theorem c7_counterexample :
    (pgLoopEvents exExpected exTraceC7).length = 2
    ∧ (∀ evs ∈ pgLoopEvents exExpected exTraceC7, ResEvent.connOpen ∈ evs)
    ∧ ResEvent.connClose ∉ (pgLoopEvents exExpected exTraceC7).flatten := by
  decide

/-- C7 (amended): the cursor — not the connection — is the resource scoped to
an attempt: whenever an attempt opens the cursor, closing it is that
attempt's last resource event (the `with conn.cursor()` block closes it on
return, exception and fall-through alike, so before any next attempt), while
the connection itself is never explicitly closed on any path of the loop. -/
theorem c7_amended_cursor_scoped_connection_never_closed :
    (∀ (expected : PyVal) (trace : List (Int × AttemptEnv)),
      ResEvent.connClose ∉ (pgLoopEvents expected trace).flatten)
    ∧ (∀ env : AttemptEnv, ResEvent.cursorOpen ∈ attemptEvents env →
        (attemptEvents env).getLast? = some ResEvent.cursorClose) := by
  constructor
  · intro expected trace hmem
    rw [List.mem_flatten] at hmem
    obtain ⟨evs, hevs, hc⟩ := hmem
    rcases pgLoopEvents_shape expected trace evs hevs with h | h <;> rw [h] at hc <;>
      simp at hc
  · intro env hmem
    cases env with
    | connectErr e => simp [attemptEvents] at hmem
    | execErr e => rfl
    | fetchErr rc e => rfl
    | ok rc rows => rfl

/-- Witness for C7 (amended) at concrete inputs. -/
theorem c7_witness :
    ResEvent.connClose ∉ (pgLoopEvents (.pyStr "any") [((1 : Int), AttemptEnv.ok 0 [])]).flatten
    ∧ (attemptEvents (.ok 0 [])).getLast? = some ResEvent.cursorClose :=
  ⟨c7_amended_cursor_scoped_connection_never_closed.1 (.pyStr "any")
      [((1 : Int), AttemptEnv.ok 0 [])],
   c7_amended_cursor_scoped_connection_never_closed.2 (.ok 0 []) (by decide)⟩

/-- C8: on every attempt that reaches `cur.execute`, the freshly opened
connection was put into autocommit mode first: the connection-open event
precedes the autocommit assignment, which precedes the query execution. -/
theorem c8_autocommit_before_query :
    ∀ env : AttemptEnv, ResEvent.execQuery ∈ attemptEvents env →
      ResEvent.setAutocommit ∈ attemptEvents env
      ∧ List.indexOf ResEvent.connOpen (attemptEvents env)
          < List.indexOf ResEvent.setAutocommit (attemptEvents env)
      ∧ List.indexOf ResEvent.setAutocommit (attemptEvents env)
          < List.indexOf ResEvent.execQuery (attemptEvents env) := by
  intro env h
  cases env with
  | connectErr e => simp [attemptEvents] at h
  | execErr e =>
    simp only [attemptEvents]
    decide
  | fetchErr rc e =>
    simp only [attemptEvents]
    decide
  | ok rc rows =>
    simp only [attemptEvents]
    decide

/-- Witness for C8 at a concrete input. -/
theorem c8_witness :
    ResEvent.setAutocommit ∈ attemptEvents (.ok 0 [])
    ∧ List.indexOf ResEvent.connOpen (attemptEvents (.ok 0 []))
        < List.indexOf ResEvent.setAutocommit (attemptEvents (.ok 0 []))
    ∧ List.indexOf ResEvent.setAutocommit (attemptEvents (.ok 0 []))
        < List.indexOf ResEvent.execQuery (attemptEvents (.ok 0 [])) :=
  c8_autocommit_before_query (.ok 0 []) (by decide)

/-- C9: `_check_tcp` extends the caller-supplied `cmd` list in place with the
timeout/bash probe invocation — the caller's list after the call is its old
content followed by the five probe words, hence never unchanged — and on
success the function's return value is exactly that mutated list. -/
theorem c9_check_tcp_extends_cmd :
    ∀ (cmd : List String) (host : String) (port timeout_secs : Int) (kind : String)
      (sf : Option SpawnFailure),
      (check_tcp cmd host port timeout_secs kind sf).1
          = cmd ++ tcpProbeSuffix host port timeout_secs
      ∧ (check_tcp cmd host port timeout_secs kind sf).1 ≠ cmd
      ∧ (sf = none →
          (check_tcp cmd host port timeout_secs kind sf).2.2
            = .ok ((check_tcp cmd host port timeout_secs kind sf).1)) := by
  intro cmd host port timeout_secs kind sf
  have h1 : (check_tcp cmd host port timeout_secs kind sf).1
      = cmd ++ tcpProbeSuffix host port timeout_secs := by
    cases sf <;> rfl
  refine ⟨h1, ?_, ?_⟩
  · rw [h1]
    intro heq
    have hlen := congrArg List.length heq
    simp only [List.length_append, tcpProbeSuffix, List.length_cons, List.length_nil] at hlen
    omega
  · intro hnone
    subst hnone
    rfl

/-- Witness for C9 at a concrete input: a successful run returns the caller's
list extended by the probe words. -/
theorem c9_witness :
    (check_tcp ["docker", "exec", "c"] "localhost" 6875 5 "" none).1
        = ["docker", "exec", "c"] ++ tcpProbeSuffix "localhost" 6875 5
    ∧ (check_tcp ["docker", "exec", "c"] "localhost" 6875 5 "" none).2.2
        = .ok ((check_tcp ["docker", "exec", "c"] "localhost" 6875 5 "" none).1) :=
  ⟨(c9_check_tcp_extends_cmd ["docker", "exec", "c"] "localhost" 6875 5 "" none).1,
   (c9_check_tcp_extends_cmd ["docker", "exec", "c"] "localhost" 6875 5 "" none).2.2 rfl⟩

/-- C4 counterexample: for a concrete failing run with label `"myservice"`,
`_check_tcp` re-raises the original `CalledProcessError` unchanged, and that
raised error's rendering does not contain the label — so the error the caller
receives is not a descriptive readiness-timeout error carrying host, port,
label, elapsed time and last connection error as claimed. -/
theorem c4_counterexample :
    (check_tcp [] "localhost" 6875 5 "myservice" (some c4fail)).2.2 = .error c4err
    ∧ strContainsSub (renderCPE c4err) "myservice" = false :=
  ⟨rfl, by decide⟩

/-- C4 (amended): when the probe fails, `_check_tcp` logs exactly one
diagnostic that embeds the label, host and port (as the prefix
`wait-for-tcp ({kind}{host}:{port}`), the full probe command (which carries
the timeout budget), the rendered error and the captured output, and then
re-raises the original `CalledProcessError` (whose fields are the extended
command and the spawn failure's exit status and captured output) unchanged. -/
theorem c4_amended_log_and_reraise :
    ∀ (cmd : List String) (host : String) (port timeout_secs : Int) (kind : String)
      (f : SpawnFailure),
      (check_tcp cmd host port timeout_secs kind (some f)).2.1
          = [tcpFailMsg kind host port (cmd ++ tcpProbeSuffix host port timeout_secs)
              ⟨cmd ++ tcpProbeSuffix host port timeout_secs,
                f.returncode, f.stdoutData, f.stderrData⟩]
      ∧ (check_tcp cmd host port timeout_secs kind (some f)).2.2
          = .error ⟨cmd ++ tcpProbeSuffix host port timeout_secs,
              f.returncode, f.stdoutData, f.stderrData⟩
      ∧ strContainsSub
          (tcpFailMsg kind host port (cmd ++ tcpProbeSuffix host port timeout_secs)
            ⟨cmd ++ tcpProbeSuffix host port timeout_secs,
              f.returncode, f.stdoutData, f.stderrData⟩)
          ("wait-for-tcp (" ++ kind ++ host ++ ":" ++ toString port) = true
      ∧ strContainsSub
          (tcpFailMsg kind host port (cmd ++ tcpProbeSuffix host port timeout_secs)
            ⟨cmd ++ tcpProbeSuffix host port timeout_secs,
              f.returncode, f.stdoutData, f.stderrData⟩)
          (optionStr f.stdoutData) = true := by
  intro cmd host port timeout_secs kind f
  refine ⟨rfl, rfl, ?_, ?_⟩
  · have hmsg : tcpFailMsg kind host port (cmd ++ tcpProbeSuffix host port timeout_secs)
        ⟨cmd ++ tcpProbeSuffix host port timeout_secs,
          f.returncode, f.stdoutData, f.stderrData⟩
        = ("wait-for-tcp (" ++ kind ++ host ++ ":" ++ toString port)
          ++ ("): error running "
            ++ (shellQuote (cmd ++ tcpProbeSuffix host port timeout_secs)
              ++ (": "
                ++ (renderCPE ⟨cmd ++ tcpProbeSuffix host port timeout_secs,
                      f.returncode, f.stdoutData, f.stderrData⟩
                  ++ (", stdout:\n"
                    ++ (optionStr f.stdoutData
                      ++ ("\nstderr:\n" ++ optionStr f.stderrData))))))) := by
      simp only [tcpFailMsg, String.append_assoc]
    rw [hmsg]
    exact strContainsSub_self_left _ _
  · have hmsg : tcpFailMsg kind host port (cmd ++ tcpProbeSuffix host port timeout_secs)
        ⟨cmd ++ tcpProbeSuffix host port timeout_secs,
          f.returncode, f.stdoutData, f.stderrData⟩
        = ("wait-for-tcp (" ++ kind ++ host ++ ":" ++ toString port ++ "): error running "
            ++ shellQuote (cmd ++ tcpProbeSuffix host port timeout_secs) ++ ": "
            ++ renderCPE ⟨cmd ++ tcpProbeSuffix host port timeout_secs,
                f.returncode, f.stdoutData, f.stderrData⟩
            ++ ", stdout:\n")
          ++ optionStr f.stdoutData
          ++ ("\nstderr:\n" ++ optionStr f.stderrData) := by
      simp only [tcpFailMsg, String.append_assoc]
    rw [hmsg]
    exact strContainsSub_append_mid _ _ _
